import Mathlib

/-!
Shallow embedding of the agent lifecycle bridge of the AI-Trader backend
(`backend/app/services/ai_trader_bridge.py`, `backend/app/services/ai_trader_service.py`)
and the ORM rows it touches (`backend/app/models/{agent_config,portfolio,trade}.py`).

Conventions of the embedding:
* Python floats (money, quantities, scores) are `Rat`; timestamps are `Nat`
  (seconds); database ids are `Nat`.
* The database session is a record of row lists.  `id` columns are primary
  keys, so `scalar_one_or_none` on an id filter is `List.find?`; the trades
  table has no uniqueness constraint on (symbol, executed_at), so there
  `scalar_one_or_none` is modelled with its `MultipleResultsFound` error
  branch intact.
* Rows expose exactly the columns their model files declare.  The bridge
  dereferences attributes that do not exist — `agent_config.portfolio_id`
  in `_create_agent_config` (AgentConfig declares no such column,
  relationship attribute or foreign key) and the constructor keyword
  `total_amount` in `sync_trades_from_ai_trader` (the trades column is
  `total_value`) — and those accesses are modelled as the exceptions
  Python raises (`PyExc`), not as working reads.
* asyncio process handles: `terminate()` on a process whose `returncode`
  is already set (child reaped, transport finalized, `_proc = None`)
  raises `ProcessLookupError`.
* Process exit timing is an external effect, passed in as an explicit
  parameter (`exitsInGrace`, a fault trace); `start_agent` keeps a
  `spawnResult` parameter for the spawn outcome although the program can
  never reach the spawn.
* Exceptions caught by a blanket `except` are modelled with `Except`.
-/

namespace AITrader

/-- The Python exceptions that reach the bridge's blanket `except` blocks:
the AttributeError of a nonexistent ORM attribute, the TypeError of an
invalid declarative-constructor keyword, SQLAlchemy's MultipleResultsFound,
and the ProcessLookupError of signalling a reaped process. -/
inductive PyExc
  | attributeError
  | typeError
  | multipleResultsFound
  | processLookupError
deriving DecidableEq

/-- TradeStatus enum of `app/models/trade.py`. -/
inductive TradeStatus
  | pending
  | executed
  | failed
  | cancelled
deriving DecidableEq

/-- One row of the trades table (`app/models/trade.py`), restricted to the
columns the reconciler's select touches plus the ones its constructor call
would set.  The total column is `total_value` (line 40) — there is no
`total_amount` attribute.  The `status` column has the declared default
`TradeStatus.PENDING`. -/
structure Trade where
  portfolio_id : Option Nat := none
  symbol : String
  trade_type : String := "buy"
  quantity : Rat := 0
  price : Rat := 0
  total_value : Rat := 0
  ai_reasoning : String := ""
  confidence_score : Rat := mkRat 1 2
  status : TradeStatus := TradeStatus.pending
  executed_at : Nat
deriving DecidableEq

/-- One JSON object of an external `*trades*.json` log file, with the keys
`sync_trades_from_ai_trader` reads via `trade_data.get(...)`.  The defaults
of `reasoning` and `confidence` are the ones the `.get` calls supply. -/
structure TradeData where
  portfolio_id : Option Nat := none
  symbol : String
  action : String := "buy"
  quantity : Rat := 0
  price : Rat := 0
  total : Rat := 0
  reasoning : String := ""
  confidence : Rat := mkRat 1 2
  timestamp : Nat
deriving DecidableEq

/-- The `Trade(...)` constructor call inside `sync_trades_from_ai_trader`
(ai_trader_bridge.py lines 166-176).  The call passes the keyword
`total_amount=trade_data.get('total')`, but the trades table declares
`total_value` (app/models/trade.py line 40) and `Trade` has no
`total_amount` attribute, so the declarative constructor raises
TypeError (invalid keyword argument) on every entry: no row is ever
constructed. -/
def tradeOfData (_d : TradeData) : Except PyExc Trade :=
  Except.error PyExc.typeError

/-- The de-duplication predicate of the reconciler: same `symbol` and same
`executed_at` timestamp. -/
def tradeMatches (d : TradeData) (t : Trade) : Bool :=
  t.symbol == d.symbol && t.executed_at == d.timestamp

/-- The rows the reconciler's `select(Trade).where(symbol, executed_at)`
returns against committed storage. -/
def matchingTrades (storage : List Trade) (d : TradeData) : List Trade :=
  storage.filter (tradeMatches d)

/-- Whether a log entry is already present in storage under the
(symbol, executed_at) key. -/
def isPresent (storage : List Trade) (d : TradeData) : Bool :=
  !(matchingTrades storage d).isEmpty

/-- The per-entry loop of `sync_trades_from_ai_trader`: for each log entry,
query committed storage; one match skips the entry, several matches make
`scalar_one_or_none` raise `MultipleResultsFound`, and no match reaches the
`Trade(...)` constructor call, which raises TypeError (`tradeOfData`) —
either exception aborts the whole call through the method's blanket
`except`.  State: rows added so far and the running `trades_synced`
counter (both grown only by the constructor branch, which never returns). -/
def syncTradesLoop (storage : List Trade) :
    List TradeData → List Trade → Nat → Except PyExc (List Trade × Nat)
  | [], added, n => Except.ok (added, n)
  | d :: ds, added, n =>
    match matchingTrades storage d with
    | [] =>
      match tradeOfData d with
      | Except.error e => Except.error e
      | Except.ok t => syncTradesLoop storage ds (added ++ [t]) (n + 1)
    | [_] => syncTradesLoop storage ds added n
    | _ :: _ :: _ => Except.error PyExc.multipleResultsFound

/-- `AITraderBridge.sync_trades_from_ai_trader` (ai_trader_bridge.py lines
144-187) restricted to one database: the log entries of all matching files,
concatenated in scan order.  On the exception-free path the added rows are
committed and the count returned; on an exception the method logs and
returns 0, and the uncommitted rows are discarded.  Because the constructor
branch always raises, the exception-free path exists only for logs whose
every entry is already present exactly once. -/
def sync_trades_from_ai_trader (storage : List Trade) (log : List TradeData) :
    List Trade × Nat :=
  match syncTradesLoop storage log [] 0 with
  | Except.ok (added, n) => (storage ++ added, n)
  | Except.error _ => (storage, 0)

/-- One row of the agent_configs table, with exactly the columns
`app/models/agent_config.py` declares (restricted to the ones relevant
here) and their declared defaults.  There is no `portfolio_id` column,
relationship attribute or foreign key on this model — the portfolio side
holds the link (`Portfolio.agent_config_id`) — and no `risk_tolerance`,
`max_trades_per_day`, `live_trading` or `last_started_at`: the bridge's
reads of those raise AttributeError. -/
structure AgentConfig where
  id : Nat
  user_id : Nat := 0
  strategy_type : String := "balanced"
  risk_level : Rat := mkRat 1 2
  max_position_size : Rat := mkRat 1 10
  stop_loss_pct : Rat := mkRat 1 20
  take_profit_pct : Rat := mkRat 3 20
  initial_cash : Rat := 10000
  max_daily_trades : Nat := 5
  market : String := "us"
  use_technical_analysis : Bool := true
  use_sentiment_analysis : Bool := true
  use_news_analysis : Bool := true
  is_active : Bool := false
  is_running : Bool := false
  last_run_at : Option Nat := none
deriving DecidableEq

/-- One row of the portfolios table (`app/models/portfolio.py`), restricted
to the columns the bridge and the service read or write.  `holdings` is the
JSON mapping from ticker symbol to quantity, with the literal key "CASH"
for uninvested cash. -/
structure Portfolio where
  id : Nat
  initial_cash : Rat := 10000
  current_cash : Rat := 10000
  total_value : Rat := 10000
  total_return : Rat := 0
  total_return_pct : Rat := 0
  holdings : List (String × Rat) := []
  market : String := "us"
deriving DecidableEq

/-- The persisted store: the three row lists the bridge touches.  `id`
columns are primary keys (unique within each list). -/
structure DB where
  agent_configs : List AgentConfig := []
  portfolios : List Portfolio := []
  trades : List Trade := []
deriving DecidableEq

/-- `select(AgentConfig).where(AgentConfig.id == id)` followed by
`scalar_one_or_none()` (id is the primary key). -/
def findAgentConfig (db : DB) (id : Nat) : Option AgentConfig :=
  db.agent_configs.find? (fun ac => ac.id == id)

/-- `AITraderBridge._create_agent_config` (ai_trader_bridge.py lines
189-244).  Its first statement builds
`select(Portfolio).where(Portfolio.id == agent_config.portfolio_id)`
(line 194), and `AgentConfig` declares no `portfolio_id` attribute, so the
access raises AttributeError on every row before the portfolio query runs:
the `scalar_one_or_none`, the NotFound `ValueError` (line 199), the config
document (lines 202-234) and the file write are all unreachable.  The
return type `Except PyExc Empty` records that the method can only raise. -/
def create_agent_config (_db : DB) (_ac : AgentConfig) : Except PyExc Empty :=
  Except.error PyExc.attributeError

/-- An `asyncio.subprocess.Process` handle as the bridge reads it: a pid and
the `returncode` field, which is `none` while the process has not been
observed to exit. -/
structure ProcHandle where
  pid : Nat
  returncode : Option Int := none
deriving DecidableEq

/-- One value of the in-memory `active_agents` dictionary: process handle,
config file path, start timestamp. -/
structure AgentEntry where
  process : ProcHandle
  config_file : String
  started_at : Nat
deriving DecidableEq

/-- The in-memory state of the bridge: the `active_agents` dictionary,
as an association list keyed by agent id (a dict never holds a key twice). -/
structure BridgeState where
  active_agents : List (Nat × AgentEntry) := []
deriving DecidableEq

/-- `agent_config_id in self.active_agents`. -/
def isTracked (st : BridgeState) (id : Nat) : Bool :=
  st.active_agents.any (fun e => e.1 == id)

/-- `self.active_agents[agent_config_id]` when present. -/
def trackedEntry (st : BridgeState) (id : Nat) : Option AgentEntry :=
  (st.active_agents.find? (fun e => e.1 == id)).map Prod.snd

/-- The `agent_config.is_running = False; commit()` update performed by
`monitor_agents` and by `stop_agent` on the row with the given primary key.
(`stop_agent` also assigns `agent_config.last_stopped_at`, which is not a
column of the model: Python happily sets the plain instance attribute, so
nothing is raised and nothing further is persisted.) -/
def dbMarkNotRunning (db : DB) (id : Nat) : DB :=
  { db with agent_configs := db.agent_configs.map (fun ac =>
      if ac.id == id then { ac with is_running := false } else ac) }

/-- What `start_agent` returns and leaves behind: the boolean result, the
in-memory map, the store, and whether `_start_trading_process` was ever
invoked (whether a spawn was attempted). -/
structure StartResult where
  success : Bool
  bridge : BridgeState
  db : DB
  spawned : Bool
deriving DecidableEq

/-- `AITraderBridge.start_agent` (ai_trader_bridge.py lines 38-82).
Control flow of the source: a missing config returns False; an id already
in `active_agents` returns True at once; otherwise the call enters
`_create_agent_config`, whose AttributeError (see `create_agent_config`)
is caught by the blanket `except` and returns False — so the spawn
(`_start_trading_process`), the live-map insert and the
`is_running = True` update below it are unreachable, and every start of an
untracked agent fails without mutating anything.  The `_spawnResult` and
`_now` parameters stand for the spawn outcome and clock of that
unreachable tail; no path consumes them. -/
def start_agent (st : BridgeState) (db : DB) (agent_config_id : Nat)
    (_spawnResult : Option Nat) (_now : Nat) : StartResult :=
  match findAgentConfig db agent_config_id with
  | none => ⟨false, st, db, false⟩
  | some ac =>
    if isTracked st agent_config_id then ⟨true, st, db, false⟩
    else
      match create_agent_config db ac with
      | Except.error _ => ⟨false, st, db, false⟩
      | Except.ok x => x.elim

/-- The process-lifecycle calls `stop_agent` makes, in order. -/
inductive StopEvent
  | terminate
  | waitGrace
  | kill
  | waitForExit
deriving DecidableEq

/-- What `stop_agent` returns and leaves behind, with the trace of
process-lifecycle calls it made. -/
structure StopResult where
  success : Bool
  bridge : BridgeState
  db : DB
  events : List StopEvent
deriving DecidableEq

/-- `del self.active_agents[agent_config_id]`. -/
def untrack (st : BridgeState) (id : Nat) : BridgeState :=
  ⟨st.active_agents.filter (fun e => !(e.1 == id))⟩

/-- `AITraderBridge.stop_agent` (ai_trader_bridge.py lines 84-123).  An id
that is not tracked returns True at once with no call made.  For a tracked
entry the method calls `process.terminate()`: when the process has already
exited and been reaped (its `returncode` is set, the transport finalized),
that call raises ProcessLookupError, the blanket `except` returns False,
and neither the live entry nor the store is touched.  Otherwise
`exitsInGrace` stands for whether `asyncio.wait_for(process.wait(), 10.0)`
completes inside the 10-second window; on timeout the method kills and
waits unconditionally; either way it removes the live entry, then fetches
the row and, when the row exists, clears `is_running` (the
`last_stopped_at` assignment sets a non-column instance attribute,
persisting nothing). -/
def stop_agent (st : BridgeState) (db : DB) (agent_config_id : Nat)
    (exitsInGrace : Bool) (_now : Nat) : StopResult :=
  match trackedEntry st agent_config_id with
  | none => ⟨true, st, db, []⟩
  | some e =>
    match e.process.returncode with
    | some _ => ⟨false, st, db, [StopEvent.terminate]⟩
    | none =>
      let events := StopEvent.terminate ::
        (if exitsInGrace then [StopEvent.waitGrace]
         else [StopEvent.waitGrace, StopEvent.kill, StopEvent.waitForExit])
      let st2 := untrack st agent_config_id
      let db2 :=
        match findAgentConfig db agent_config_id with
        | some _ => dbMarkNotRunning db agent_config_id
        | none => db
      ⟨true, st2, db2, events⟩

/-- The dictionary `get_agent_status` returns. -/
structure StatusReport where
  running : Bool
  status : String
  pid : Option Nat := none
  started_at : Option Nat := none
  uptime_seconds : Option Nat := none
deriving DecidableEq

/-- `AITraderBridge.get_agent_status` (ai_trader_bridge.py lines 125-142).
A pure read: it returns a report and the map exactly as it was (the method
performs no deletion and takes no database session). -/
def get_agent_status (st : BridgeState) (agent_config_id : Nat) (now : Nat) :
    StatusReport × BridgeState :=
  match trackedEntry st agent_config_id with
  | none => ({ running := false, status := "stopped" }, st)
  | some e =>
    ({ running := true
       status := if e.process.returncode == none then "active" else "crashed"
       pid := some e.process.pid
       started_at := some e.started_at
       uptime_seconds := some (now - e.started_at) }, st)

/-- The liveness sweep of one `monitor_agents` iteration (ai_trader_bridge.py
lines 282-297): walk the tracked entries in order; an entry whose process
has a set `returncode` is logged, its row (when present) gets
`is_running = False` committed, and the entry is deleted; live entries are
kept. -/
def monitorSweep : List (Nat × AgentEntry) → DB → List (Nat × AgentEntry) × DB
  | [], db => ([], db)
  | (id, e) :: rest, db =>
    match e.process.returncode with
    | none =>
      let r := monitorSweep rest db
      ((id, e) :: r.1, r.2)
    | some _ => monitorSweep rest (dbMarkNotRunning db id)

/-- One iteration of the `while True` body of `monitor_agents`
(ai_trader_bridge.py lines 277-307).  `fault` stands for an exception
raised inside the iteration (for instance a storage failure on the first
database access): the blanket `except` catches it and the loop sleeps 60
seconds; a normal iteration sweeps dead processes, reconciles the trade
logs, and sleeps 300 seconds.  Returns the successor state and the sleep
the iteration ends with. -/
def monitorIteration (st : BridgeState) (db : DB) (log : List TradeData)
    (fault : Bool) : BridgeState × DB × Nat :=
  if fault then (st, db, 60)
  else
    let swept := monitorSweep st.active_agents db
    let synced := sync_trades_from_ai_trader swept.2.trades log
    (⟨swept.1⟩, { swept.2 with trades := synced.1 }, 300)

/-- The `monitor_agents` loop run over a finite schedule: one fault flag and
one log snapshot per iteration.  Returns the final state and the list of
sleeps performed, one per iteration — the loop body never escapes, so the
run consumes the whole schedule. -/
def monitor_agents :
    List (Bool × List TradeData) → BridgeState → DB →
      BridgeState × DB × List Nat
  | [], st, db => (st, db, [])
  | (fault, log) :: rest, st, db =>
    let step := monitorIteration st db log fault
    let tail := monitor_agents rest step.1 step.2.1
    (tail.1, tail.2.1, step.2.2 :: tail.2.2)

/-- One line of an AI-Trader `position.jsonl` file as `_parse_position_file`
(ai_trader_service.py lines 323-336) sees it: whitespace-only, a JSON
record, or text `json.loads` rejects. -/
inductive PosLine
  | blank
  | record (positions : List (String × Rat))
  | malformed
deriving DecidableEq

/-- `AITraderService._parse_position_file`: skip whitespace-only lines,
collect parsed records in order; a line `json.loads` rejects raises inside
the `try`, which returns the records collected so far. -/
def parse_position_file : List PosLine → List (List (String × Rat))
  | [] => []
  | PosLine.blank :: rest => parse_position_file rest
  | PosLine.record positions :: rest => positions :: parse_position_file rest
  | PosLine.malformed :: _ => []

/-- `holdings.get(key, 0.0)` on the holdings JSON mapping. -/
def holdingsGet (holdings : List (String × Rat)) (key : String) : Rat :=
  match holdings.find? (fun h => h.1 == key) with
  | some h => h.2
  | none => 0

/-- `AITraderService._calculate_portfolio_value` (ai_trader_service.py lines
338-350): start from the CASH entry, then add quantity times the
placeholder price 150.0 for every non-CASH symbol with positive quantity. -/
def calculate_portfolio_value (holdings : List (String × Rat)) : Rat :=
  holdings.foldl
    (fun total h => if h.1 ≠ "CASH" ∧ 0 < h.2 then total + h.2 * 150 else total)
    (holdingsGet holdings "CASH")

/-- `Portfolio.update_performance_metrics` (app/models/portfolio.py lines
75-79). -/
def update_performance_metrics (p : Portfolio) : Portfolio :=
  if 0 < p.initial_cash then
    let ret := p.total_value - p.initial_cash
    { p with total_return := ret, total_return_pct := ret / p.initial_cash * 100 }
  else p

/-- The result dictionary of `sync_portfolio_data`: `status` plus the data
of the success branch (`trades_synced` comes from the `_sync_trades`
placeholder, which always reports 0). -/
inductive PortfolioSyncResult
  | success (portfolio_value : Rat) (holdings : List (String × Rat)) (trades_synced : Nat)
  | no_data
deriving DecidableEq

/-- `AITraderService.sync_portfolio_data` (ai_trader_service.py lines
135-189).  The position file is `none` when `position_file.exists()` is
false.  No file, or a file whose parse yields no records, returns the
"no data" result with the portfolio untouched; otherwise the last record
overwrites holdings and cash, the total value is recomputed, the
performance metrics updated, and the trade sync placeholder reports 0. -/
def sync_portfolio_data (file : Option (List PosLine)) (p : Portfolio) :
    PortfolioSyncResult × Portfolio :=
  match file with
  | none => (PortfolioSyncResult.no_data, p)
  | some lines =>
    match (parse_position_file lines).getLast? with
    | none => (PortfolioSyncResult.no_data, p)
    | some latest =>
      let holdings := latest
      let cash := holdingsGet holdings "CASH"
      let total := calculate_portfolio_value holdings
      let p2 := update_performance_metrics
        { p with holdings := holdings, current_cash := cash, total_value := total }
      (PortfolioSyncResult.success total holdings 0, p2)

/-! Helper lemmas shared by the claim theorems. -/

/-- Removing an id from the live map leaves it untracked. -/
theorem isTracked_untrack (st : BridgeState) (id : Nat) :
    isTracked (untrack st id) id = false := by
  simp [isTracked, untrack, List.any_eq_true, List.mem_filter]

/-- After `dbMarkNotRunning db id`, every row with that id has
`is_running = false`. -/
theorem dbMarkNotRunning_not_running (db : DB) (id : Nat) :
    ∀ ac ∈ (dbMarkNotRunning db id).agent_configs, ac.id = id → ac.is_running = false := by
  intro ac hmem hid
  simp only [dbMarkNotRunning, List.mem_map] at hmem
  obtain ⟨a, _, rfl⟩ := hmem
  by_cases hc : a.id = id
  · simp [hc]
  · simp [hc] at hid ⊢

/-- When no row has the id, the running-flag condition holds vacuously. -/
theorem findAgentConfig_none_not_running (db : DB) (id : Nat)
    (hn : findAgentConfig db id = none) :
    ∀ ac ∈ db.agent_configs, ac.id = id → ac.is_running = false := by
  intro ac hmem hid
  rw [findAgentConfig, List.find?_eq_none] at hn
  exact absurd (by simp [hid]) (hn ac hmem)

/-! Claim theorems. -/

/-- C1 (amended): every start of an agent not already tracked as live
fails: `_create_agent_config` raises AttributeError on the nonexistent
`AgentConfig.portfolio_id` before any portfolio check, the blanket
`except` returns False, no subprocess spawn is attempted, and neither the
live map nor the store (in particular `is_running`) is touched.  This
covers an inactive AgentConfig and a deleted linked Portfolio alike; the
NotFound `ValueError` the spec names is unreachable, and the failure
result is the plain False.  For an agent already tracked as live the call
instead succeeds as a no-op, refuting the original unconditional claim
(`C1_counterexample`). -/
theorem C1_start_untracked_fails (st : BridgeState) (db : DB) (id : Nat)
    (spawnResult : Option Nat) (now : Nat)
    (hnt : isTracked st id = false) :
    (start_agent st db id spawnResult now).success = false ∧
    (start_agent st db id spawnResult now).spawned = false ∧
    (start_agent st db id spawnResult now).bridge = st ∧
    (start_agent st db id spawnResult now).db = db := by
  cases hf : findAgentConfig db id with
  | none => simp [start_agent, hf]
  | some ac => simp [start_agent, hf, hnt, create_agent_config]

/-- Live map for the C1 counterexample: agent 1 tracked. -/
def stC1 : BridgeState := ⟨[(1, ⟨⟨42, none⟩, "agent_1_config.json", 0⟩)]⟩

/-- Store for the C1 counterexample: an inactive AgentConfig row 1. -/
def dbC1 : DB := { agent_configs := [{ id := 1, is_active := false }] }

/-- C1 counterexample: for an agent whose AgentConfig has
`is_active = false` but which is already tracked as live, the start call
returns success, not a failure result. -/
theorem C1_counterexample :
    (findAgentConfig dbC1 1).map AgentConfig.is_active = some false ∧
    isTracked stC1 1 = true ∧
    (start_agent stC1 dbC1 1 (some 42) 0).success = true := by
  decide

/-- Store for the C1 witness: an untracked inactive config; the store
holds no portfolio rows at all, so any linked portfolio is missing. -/
def dbC1w : DB := { agent_configs := [{ id := 5, is_active := false }] }

/-- Witness for C1: the amended theorem applied at a concrete untracked
inactive config. -/
theorem C1_witness :
    isTracked ⟨[]⟩ 5 = false ∧
    (start_agent ⟨[]⟩ dbC1w 5 (some 11) 0).success = false ∧
    (start_agent ⟨[]⟩ dbC1w 5 (some 11) 0).spawned = false ∧
    (start_agent ⟨[]⟩ dbC1w 5 (some 11) 0).db = dbC1w :=
  ⟨by decide, (C1_start_untracked_fails ⟨[]⟩ dbC1w 5 (some 11) 0 (by decide)).1,
    (C1_start_untracked_fails ⟨[]⟩ dbC1w 5 (some 11) 0 (by decide)).2.1,
    (C1_start_untracked_fails ⟨[]⟩ dbC1w 5 (some 11) 0 (by decide)).2.2.2⟩

/-- C3 (amended): for an agent tracked as live whose process has not been
observed to exit (`returncode` unset), `stop_agent` returns success,
removes the live entry, leaves every row with that id not running, and its
process calls are: terminate, then the 10-second bounded wait, and —
exactly when the wait times out — a kill followed by an unconditional
wait.  For a tracked agent whose process has already exited and been
reaped (`returncode` set), `process.terminate()` instead raises
ProcessLookupError: the call returns failure and the live entry and the
flag are left untouched (`C3_counterexample`), refuting the original
claim's "even if the process had already exited". -/
theorem C3_stop_live_tracked (st : BridgeState) (db : DB) (id : Nat)
    (g : Bool) (now : Nat) (e : AgentEntry)
    (ht : trackedEntry st id = some e)
    (hrc : e.process.returncode = none) :
    (stop_agent st db id g now).success = true ∧
    isTracked (stop_agent st db id g now).bridge id = false ∧
    (∀ ac ∈ (stop_agent st db id g now).db.agent_configs,
      ac.id = id → ac.is_running = false) ∧
    (stop_agent st db id g now).events =
      StopEvent.terminate :: StopEvent.waitGrace ::
        (if g then [] else [StopEvent.kill, StopEvent.waitForExit]) := by
  refine ⟨?_, ?_, ?_, ?_⟩
  · simp [stop_agent, ht, hrc]
  · simp only [stop_agent, ht, hrc]
    exact isTracked_untrack st id
  · cases hf : findAgentConfig db id with
    | none =>
      simp only [stop_agent, ht, hrc, hf]
      exact findAgentConfig_none_not_running db id hf
    | some ac =>
      simp only [stop_agent, ht, hrc, hf]
      exact dbMarkNotRunning_not_running db id
  · simp only [stop_agent, ht, hrc]
    cases g <;> rfl

/-- Live map for the C3 counterexample: agent 2 tracked, its process
exited and reaped. -/
def stC3x : BridgeState := ⟨[(2, ⟨⟨9, some 1⟩, "agent_2_config.json", 1⟩)]⟩

/-- Store for the C3 counterexample: agent 2 still marked running. -/
def dbC3x : DB := { agent_configs := [{ id := 2, is_running := true }] }

/-- C3 counterexample: stopping tracked agent 2, whose process already
exited, fails — `terminate()` raises ProcessLookupError — and neither the
live entry nor the persisted running flag is cleared. -/
theorem C3_counterexample :
    trackedEntry stC3x 2 = some ⟨⟨9, some 1⟩, "agent_2_config.json", 1⟩ ∧
    (stop_agent stC3x dbC3x 2 true 8).success = false ∧
    isTracked (stop_agent stC3x dbC3x 2 true 8).bridge 2 = true ∧
    (findAgentConfig (stop_agent stC3x dbC3x 2 true 8).db 2).map
      AgentConfig.is_running = some true := by
  decide

/-- Live map for the C3 witness: agent 2 tracked with a live process. -/
def stC3 : BridgeState := ⟨[(2, ⟨⟨9, none⟩, "agent_2_config.json", 1⟩)]⟩

/-- Store for the C3 witness: agent 2 marked running. -/
def dbC3 : DB := { agent_configs := [{ id := 2, is_running := true }] }

/-- Witness for C3: stopping tracked agent 2 whose bounded wait times out. -/
theorem C3_witness :
    trackedEntry stC3 2 = some ⟨⟨9, none⟩, "agent_2_config.json", 1⟩ ∧
    (stop_agent stC3 dbC3 2 false 8).success = true ∧
    isTracked (stop_agent stC3 dbC3 2 false 8).bridge 2 = false :=
  ⟨by decide,
    (C3_stop_live_tracked stC3 dbC3 2 false 8 ⟨⟨9, none⟩, "agent_2_config.json", 1⟩
      (by decide) (by decide)).1,
    (C3_stop_live_tracked stC3 dbC3 2 false 8 ⟨⟨9, none⟩, "agent_2_config.json", 1⟩
      (by decide) (by decide)).2.1⟩

/-- C5 (a fortiori): `start_agent` never attempts a spawn and never
mutates the live map or the store on any input — `_start_trading_process`
is unreachable, because the AttributeError in `_create_agent_config`
precedes it — and a start call returns success only as the
already-tracked no-op.  The claim's scenario, a call on which spawning
fails, therefore cannot occur in the program, and every call it would
describe returns failure with persisted state unchanged. -/
theorem C5_start_frame (st : BridgeState) (db : DB) (id : Nat)
    (spawnResult : Option Nat) (now : Nat) :
    (start_agent st db id spawnResult now).spawned = false ∧
    (start_agent st db id spawnResult now).bridge = st ∧
    (start_agent st db id spawnResult now).db = db ∧
    ((start_agent st db id spawnResult now).success = true →
      isTracked st id = true) := by
  cases hf : findAgentConfig db id with
  | none => simp [start_agent, hf]
  | some ac =>
    cases ht : isTracked st id with
    | true => simp [start_agent, hf, ht]
    | false => simp [start_agent, hf, ht, create_agent_config]

/-- Live map for the C5 witness: agent 3 tracked. -/
def stC5 : BridgeState := ⟨[(3, ⟨⟨8, none⟩, "agent_3_config.json", 0⟩)]⟩

/-- Store for the C5 witness: agent 3 present. -/
def dbC5 : DB := { agent_configs := [{ id := 3 }] }

/-- Witness for C5: the frame theorem applied at a concrete input,
discharging the implication's hypothesis at the one kind of call that can
return success. -/
theorem C5_witness :
    (start_agent stC5 dbC5 3 none 0).success = true ∧
    (start_agent stC5 dbC5 3 none 0).spawned = false ∧
    (start_agent stC5 dbC5 3 none 0).db = dbC5 ∧
    isTracked stC5 3 = true :=
  ⟨by decide, (C5_start_frame stC5 dbC5 3 none 0).1,
    (C5_start_frame stC5 dbC5 3 none 0).2.2.1,
    (C5_start_frame stC5 dbC5 3 none 0).2.2.2 (by decide)⟩

/-- C7: when the position file is absent, or parsing it yields no position
records, `sync_portfolio_data` returns the "no data" result and the
Portfolio row — holdings, cash balance, total value and all — is returned
unchanged. -/
theorem C7_sync_portfolio_no_data (file : Option (List PosLine)) (p : Portfolio)
    (h : file = none ∨ ∃ lines, file = some lines ∧ parse_position_file lines = []) :
    sync_portfolio_data file p = (PortfolioSyncResult.no_data, p) := by
  rcases h with h | ⟨lines, hf, hp⟩
  · subst h
    rfl
  · subst hf
    simp [sync_portfolio_data, hp]

/-- Witness for C7: a file holding one blank line and one malformed line
parses to no records and reconciles to "no data". -/
theorem C7_witness :
    (none = (none : Option (List PosLine)) ∨
      ∃ lines, (some [PosLine.blank, PosLine.malformed] : Option (List PosLine)) = some lines ∧
        parse_position_file lines = []) ∧
    sync_portfolio_data (some [PosLine.blank, PosLine.malformed]) { id := 3 } =
      (PortfolioSyncResult.no_data, { id := 3 }) :=
  ⟨Or.inr ⟨[PosLine.blank, PosLine.malformed], rfl, rfl⟩,
    C7_sync_portfolio_no_data (some [PosLine.blank, PosLine.malformed]) { id := 3 }
      (Or.inr ⟨[PosLine.blank, PosLine.malformed], rfl, rfl⟩)⟩

/-- C8: the monitor loop consumes its whole schedule — no exception inside
an iteration ends it — and the sleep after each iteration is 60 seconds
when the iteration raised and 300 seconds (5 minutes) when it completed. -/
theorem C8_monitor_loop_immortal (sched : List (Bool × List TradeData))
    (st : BridgeState) (db : DB) :
    (monitor_agents sched st db).2.2 =
      sched.map (fun it => if it.1 then 60 else 300) := by
  induction sched generalizing st db with
  | nil => rfl
  | cons it rest ih =>
    obtain ⟨fault, log⟩ := it
    cases fault <;> simp [monitor_agents, monitorIteration, ih]

/-- C9 (amended): calling start on an agent already tracked as live returns
success without attempting a spawn and without touching the live map or the
store — provided its AgentConfig row still exists; the original unconditional
claim is refuted by `C9_counterexample`, because `start_agent` resolves the
row before the already-tracked check and fails when it is gone. -/
theorem C9_start_idempotent (st : BridgeState) (db : DB) (id : Nat)
    (spawnResult : Option Nat) (now : Nat) (ac : AgentConfig)
    (hf : findAgentConfig db id = some ac)
    (ht : isTracked st id = true) :
    start_agent st db id spawnResult now = ⟨true, st, db, false⟩ := by
  simp [start_agent, hf, ht]

/-- Live map for the C9 counterexample and witness: agent 1 tracked. -/
def stC9 : BridgeState := ⟨[(1, ⟨⟨42, none⟩, "agent_1_config.json", 0⟩)]⟩

/-- C9 counterexample: agent 1 is tracked as live, but its AgentConfig row
has been deleted from the store; calling start again returns failure, not
success. -/
theorem C9_counterexample :
    isTracked stC9 1 = true ∧
    (start_agent stC9 ⟨[], [], []⟩ 1 (some 99) 5).success = false := by
  decide

/-- Store for the C9 witness: agent 1 still has its row. -/
def dbC9 : DB := { agent_configs := [{ id := 1, is_running := true }] }

/-- Witness for C9: starting tracked agent 1 again is a successful no-op. -/
theorem C9_witness :
    findAgentConfig dbC9 1 = some { id := 1, is_running := true } ∧
    isTracked stC9 1 = true ∧
    start_agent stC9 dbC9 1 (some 99) 5 = ⟨true, stC9, dbC9, false⟩ :=
  ⟨by decide, by decide,
    C9_start_idempotent stC9 dbC9 1 (some 99) 5
      { id := 1, is_running := true } (by decide) (by decide)⟩

/-- C10: `get_agent_status` returns the live map exactly as it was — it
deletes nothing and takes no database session — and for a tracked agent
whose process has exited it still reports `running = true` with status
"crashed", leaving the entry in place. -/
theorem C10_get_agent_status_pure (st : BridgeState) (id now : Nat) :
    (get_agent_status st id now).2 = st ∧
    (∀ e : AgentEntry, trackedEntry st id = some e → e.process.returncode ≠ none →
      (get_agent_status st id now).1.running = true ∧
      (get_agent_status st id now).1.status = "crashed" ∧
      trackedEntry (get_agent_status st id now).2 id = some e) := by
  constructor
  · unfold get_agent_status
    cases trackedEntry st id <;> rfl
  · intro e he hrc
    unfold get_agent_status
    rw [he]
    cases hx : e.process.returncode with
    | none => exact absurd hx hrc
    | some c => simp [hx, he]

/-- Live map for the C10 witness: agent 7 tracked with an exited process. -/
def stC10 : BridgeState := ⟨[(7, ⟨⟨5, some 1⟩, "agent_7_config.json", 2⟩)]⟩

/-- Witness for C10: status of crashed agent 7 reports running with status
"crashed" and leaves the map as it was. -/
theorem C10_witness :
    (get_agent_status stC10 7 10).2 = stC10 ∧
    ((get_agent_status stC10 7 10).1.running = true ∧
      (get_agent_status stC10 7 10).1.status = "crashed" ∧
      trackedEntry (get_agent_status stC10 7 10).2 7 =
        some ⟨⟨5, some 1⟩, "agent_7_config.json", 2⟩) :=
  ⟨(C10_get_agent_status_pure stC10 7 10).1,
    (C10_get_agent_status_pure stC10 7 10).2
      ⟨⟨5, some 1⟩, "agent_7_config.json", 2⟩ (by decide) (by decide)⟩

/-- A found live entry is a member of the map. -/
theorem trackedEntry_mem (st : BridgeState) (id : Nat) (e : AgentEntry)
    (h : trackedEntry st id = some e) : (id, e) ∈ st.active_agents := by
  unfold trackedEntry at h
  cases hf : st.active_agents.find? (fun q => q.1 == id) with
  | none => rw [hf] at h; cases h
  | some q =>
    rw [hf] at h
    obtain ⟨qid, qe⟩ := q
    have hq := List.find?_some hf
    have hmem := List.mem_of_find?_eq_some hf
    simp only [Option.map_some', Option.some.injEq] at h
    simp only [beq_iff_eq] at hq
    rw [← h, ← hq]
    exact hmem

/-- In a map whose keys are nodup, one key has one entry. -/
theorem nodup_key_unique (l : List (Nat × AgentEntry)) (id : Nat)
    (e1 e2 : AgentEntry) (hnd : (l.map Prod.fst).Nodup)
    (h1 : (id, e1) ∈ l) (h2 : (id, e2) ∈ l) : e1 = e2 := by
  induction l with
  | nil => cases h1
  | cons hd rest ih =>
    obtain ⟨j, a⟩ := hd
    rw [List.map_cons, List.nodup_cons] at hnd
    rcases List.mem_cons.mp h1 with he1 | h1r
    · rcases List.mem_cons.mp h2 with he2 | h2r
      · cases he1; cases he2; rfl
      · cases he1
        exact absurd (List.mem_map_of_mem Prod.fst h2r) hnd.1
    · rcases List.mem_cons.mp h2 with he2 | h2r
      · cases he2
        exact absurd (List.mem_map_of_mem Prod.fst h1r) hnd.1
      · exact ih hnd.2 h1r h2r

/-- Every entry surviving the liveness sweep has a live process. -/
theorem monitorSweep_survivors_alive (l : List (Nat × AgentEntry)) (db : DB) :
    ∀ q ∈ (monitorSweep l db).1, q.2.process.returncode = none := by
  induction l generalizing db with
  | nil =>
    intro q hq
    simp [monitorSweep] at hq
  | cons hd rest ih =>
    obtain ⟨id, e⟩ := hd
    intro q hq
    cases hx : e.process.returncode with
    | none =>
      simp only [monitorSweep, hx] at hq
      rcases List.mem_cons.mp hq with rfl | hq2
      · exact hx
      · exact ih db q hq2
    | some c =>
      simp only [monitorSweep, hx] at hq
      exact ih (dbMarkNotRunning db id) q hq

/-- `dbMarkNotRunning` for any row keeps every already-cleared id cleared. -/
theorem dbMarkNotRunning_preserves (db : DB) (j id : Nat)
    (h : ∀ ac ∈ db.agent_configs, ac.id = id → ac.is_running = false) :
    ∀ ac ∈ (dbMarkNotRunning db j).agent_configs, ac.id = id → ac.is_running = false := by
  intro ac hmem hid
  simp only [dbMarkNotRunning, List.mem_map] at hmem
  obtain ⟨a, ha, rfl⟩ := hmem
  by_cases hc : a.id = j
  · simp [hc]
  · simp [hc] at hid ⊢
    exact h a ha hid

/-- The sweep keeps every already-cleared id cleared. -/
theorem monitorSweep_preserves (l : List (Nat × AgentEntry)) (db : DB) (id : Nat)
    (h : ∀ ac ∈ db.agent_configs, ac.id = id → ac.is_running = false) :
    ∀ ac ∈ (monitorSweep l db).2.agent_configs, ac.id = id → ac.is_running = false := by
  induction l generalizing db with
  | nil => exact h
  | cons hd rest ih =>
    obtain ⟨j, a⟩ := hd
    cases hx : a.process.returncode with
    | none =>
      simp only [monitorSweep, hx]
      exact ih db h
    | some c =>
      simp only [monitorSweep, hx]
      exact ih (dbMarkNotRunning db j) (dbMarkNotRunning_preserves db j id h)

/-- A tracked entry whose process has exited gets its persisted flag
cleared by the sweep. -/
theorem monitorSweep_clears_flag (l : List (Nat × AgentEntry)) (db : DB)
    (id : Nat) (e : AgentEntry) (hmem : (id, e) ∈ l)
    (hdead : e.process.returncode ≠ none) :
    ∀ ac ∈ (monitorSweep l db).2.agent_configs, ac.id = id → ac.is_running = false := by
  induction l generalizing db with
  | nil => cases hmem
  | cons hd rest ih =>
    obtain ⟨j, a⟩ := hd
    rcases List.mem_cons.mp hmem with heq | hmem2
    · cases heq
      cases hx : e.process.returncode with
      | none => exact absurd hx hdead
      | some c =>
        simp only [monitorSweep, hx]
        exact monitorSweep_preserves rest (dbMarkNotRunning db id) id
          (dbMarkNotRunning_not_running db id)
    · cases hx : a.process.returncode with
      | none =>
        simp only [monitorSweep, hx]
        exact ih db hmem2
      | some c =>
        simp only [monitorSweep, hx]
        exact ih (dbMarkNotRunning db j) hmem2

/-- When every entry carrying the id is dead, the sweep removes them all. -/
theorem monitorSweep_removes (l : List (Nat × AgentEntry)) (db : DB) (id : Nat)
    (hall : ∀ e : AgentEntry, (id, e) ∈ l → e.process.returncode ≠ none) :
    ∀ q ∈ (monitorSweep l db).1, q.1 ≠ id := by
  induction l generalizing db with
  | nil =>
    intro q hq
    simp [monitorSweep] at hq
  | cons hd rest ih =>
    obtain ⟨j, a⟩ := hd
    intro q hq
    cases hx : a.process.returncode with
    | none =>
      simp only [monitorSweep, hx] at hq
      rcases List.mem_cons.mp hq with rfl | hq2
      · intro hji
        subst hji
        exact hall a (List.mem_cons_self _ _) (by simp [hx])
      · exact ih db (fun e2 h2 => hall e2 (List.mem_cons_of_mem _ h2)) q hq2
    | some c =>
      simp only [monitorSweep, hx] at hq
      exact ih (dbMarkNotRunning db j) (fun e2 h2 => hall e2 (List.mem_cons_of_mem _ h2)) q hq

/-- C6: a fault-free monitor iteration restores the invariant for every
tracked agent whose process has exited: its live entry is removed (no
surviving entry carries the id, and every survivor is live) and every
persisted row with its id ends with `is_running = false` — so the flag and
the map diverge for at most one monitor cycle. -/
theorem C6_monitor_restores_invariant (st : BridgeState) (db : DB)
    (log : List TradeData) (id : Nat) (e : AgentEntry) (c : Int)
    (hnd : (st.active_agents.map Prod.fst).Nodup)
    (he : trackedEntry st id = some e)
    (hc : e.process.returncode = some c) :
    isTracked (monitorIteration st db log false).1 id = false ∧
    (∀ q ∈ (monitorIteration st db log false).1.active_agents,
      q.2.process.returncode = none) ∧
    (∀ ac ∈ (monitorIteration st db log false).2.1.agent_configs,
      ac.id = id → ac.is_running = false) := by
  have hmem := trackedEntry_mem st id e he
  have hdead : e.process.returncode ≠ none := by simp [hc]
  have hrem : ∀ q ∈ (monitorSweep st.active_agents db).1, q.1 ≠ id := by
    apply monitorSweep_removes
    intro e2 h2
    have he2 : e2 = e := nodup_key_unique _ id e2 e hnd h2 hmem
    rw [he2]
    exact hdead
  refine ⟨?_, ?_, ?_⟩
  · show (⟨(monitorSweep st.active_agents db).1⟩ : BridgeState).active_agents.any
      (fun q => q.1 == id) = false
    rw [List.any_eq_false]
    intro q hq
    simp only [beq_iff_eq]
    exact hrem q hq
  · intro q hq
    exact monitorSweep_survivors_alive st.active_agents db q hq
  · intro ac hac hid
    exact monitorSweep_clears_flag st.active_agents db id e hmem hdead ac hac hid

/-- Live map for the C6 witness: agent 4 tracked, its process exited. -/
def stC6 : BridgeState := ⟨[(4, ⟨⟨77, some 0⟩, "agent_4_config.json", 3⟩)]⟩

/-- Store for the C6 witness: agent 4 still marked running. -/
def dbC6 : DB := { agent_configs := [{ id := 4, is_running := true }] }

/-- Witness for C6: after one fault-free iteration agent 4 is untracked. -/
theorem C6_witness :
    (stC6.active_agents.map Prod.fst).Nodup ∧
    trackedEntry stC6 4 = some ⟨⟨77, some 0⟩, "agent_4_config.json", 3⟩ ∧
    isTracked (monitorIteration stC6 dbC6 [] false).1 4 = false :=
  ⟨by decide, by decide,
    (C6_monitor_restores_invariant stC6 dbC6 [] 4
      ⟨⟨77, some 0⟩, "agent_4_config.json", 3⟩ 0
      (by decide) (by decide) (by decide)).1⟩

/-- The per-entry loop either returns its accumulator untouched or aborts:
an absent entry dies on the constructor TypeError, a multiply-present one
on MultipleResultsFound, and a singly-present one is skipped. -/
theorem syncTradesLoop_no_growth (storage : List Trade) :
    ∀ (ds : List TradeData) (added : List Trade) (n : Nat),
      syncTradesLoop storage ds added n = Except.ok (added, n) ∨
        ∃ e, syncTradesLoop storage ds added n = Except.error e := by
  intro ds
  induction ds with
  | nil =>
    intro added n
    left
    rfl
  | cons d rest ih =>
    intro added n
    cases hm : matchingTrades storage d with
    | nil =>
      right
      exact ⟨PyExc.typeError, by simp [syncTradesLoop, hm, tradeOfData]⟩
    | cons x xs =>
      cases xs with
      | nil =>
        have hr := ih added n
        simp only [syncTradesLoop, hm]
        exact hr
      | cons y ys =>
        right
        exact ⟨PyExc.multipleResultsFound, by simp [syncTradesLoop, hm]⟩

/-- The reconciler inserts nothing on any input: present entries are
skipped and the first absent entry aborts the call through the constructor
TypeError, so storage is returned unchanged with count 0. -/
theorem sync_trades_no_insert (storage : List Trade) (log : List TradeData) :
    sync_trades_from_ai_trader storage log = (storage, 0) := by
  unfold sync_trades_from_ai_trader
  rcases syncTradesLoop_no_growth storage log [] 0 with h | ⟨e, h⟩
  · rw [h]
    simp
  · rw [h]

/-- C2 (vacuously): every Trade row the log reconciler inserts for an
external record not already present has status "executed" — vacuously,
because the reconciler can never insert a row: its `Trade(...)` call
raises TypeError on the invalid `total_amount` keyword, the blanket
`except` returns 0, and storage comes back unchanged, so every row of the
result was already in storage. -/
theorem C2_synced_trades_executed (storage : List Trade) (log : List TradeData) :
    sync_trades_from_ai_trader storage log = (storage, 0) ∧
    ∀ t ∈ (sync_trades_from_ai_trader storage log).1,
      t ∈ storage ∨ t.status = TradeStatus.executed := by
  refine ⟨sync_trades_no_insert storage log, ?_⟩
  intro t ht
  rw [sync_trades_no_insert storage log] at ht
  exact Or.inl ht

/-- Storage row for the C2 witness. -/
def tC2 : Trade := { symbol := "AAPL", executed_at := 1 }

/-- Witness for C2: the theorem applied to a row of a concrete
reconciliation result. -/
theorem C2_witness :
    tC2 ∈ (sync_trades_from_ai_trader [tC2] []).1 ∧
    (tC2 ∈ [tC2] ∨ tC2.status = TradeStatus.executed) :=
  ⟨by decide, (C2_synced_trades_executed [tC2] []).2 tC2 (by decide)⟩

/-- C4 (amended): the reconciler inserts no rows at all: every
reconciliation returns its storage unchanged with count 0 — the first
absent entry raises TypeError inside the `Trade(...)` call and the blanket
`except` aborts with 0 — and so a second identical reconciliation also
inserts 0 further rows.  The claimed N − M insertions are refuted by
`C4_counterexample`. -/
theorem C4_sync_counts (storage : List Trade) (log : List TradeData) :
    sync_trades_from_ai_trader storage log = (storage, 0) ∧
    sync_trades_from_ai_trader (sync_trades_from_ai_trader storage log).1 log =
      ((sync_trades_from_ai_trader storage log).1, 0) := by
  refine ⟨sync_trades_no_insert storage log, ?_⟩
  rw [sync_trades_no_insert storage log]
  exact sync_trades_no_insert storage log

/-- Log entry for the C4 counterexample, absent from the empty storage. -/
def dC4 : TradeData := { symbol := "MSFT", timestamp := 2 }

/-- C4 counterexample: over empty storage, a log of N = 1 entries with
M = 0 already present inserts 0 rows and returns 0, not N − M = 1: the
constructor TypeError aborts the sync before any insert. -/
theorem C4_counterexample :
    ([dC4] : List TradeData).length = 1 ∧
    ([dC4].filter (fun d => isPresent [] d)).length = 0 ∧
    sync_trades_from_ai_trader [] [dC4] = ([], 0) ∧
    (1 - 0 : Nat) ≠ 0 := by
  decide

end AITrader


